import Mathlib

/-!
Verification of `mono/mono/utils/mono-hwcap-arm.c` (ARM hardware feature
detection).  The eight global `gboolean` flags are modelled as a record
`CapabilitySet`; the three compile-time detection paths of
`mono_hwcap_arch_init` become pure state-transformers over that record,
parameterised by the detection environment (auxiliary-vector values,
`uname` machine string, `/proc/cpuinfo` lines).  C strings are modelled
as `List Char`; reading one past the end of a string models reading the
NUL terminator, yielding `Char.ofNat 0`.
-/

/-- The record of the eight global flags
(`mono_hwcap_arm_is_v5` … `mono_hwcap_arm_has_thumb2`). -/
structure CapabilitySet where
  is_v5 : Bool
  is_v6 : Bool
  is_v7 : Bool
  has_vfp : Bool
  has_vfp3 : Bool
  has_vfp3_d16 : Bool
  has_thumb : Bool
  has_thumb2 : Bool
deriving DecidableEq, Repr

/-- Initial state of the globals: every flag is initialised to `FALSE`. -/
def initState : CapabilitySet :=
  ⟨false, false, false, false, false, false, false, false⟩

/-- The NUL terminator of a C string. -/
def nulChar : Char := Char.ofNat 0

/-- `cAt l i` is `l[i]` of a C string: the character at index `i`, or the
NUL terminator when the index is one past the end. -/
def cAt (l : List Char) (i : Nat) : Char := l.getD i nulChar

/-- `strncmpZero s lit` models `strncmp (s, lit, strlen lit) == 0` for a
literal `lit`: the literal is a prefix of `s`. -/
def strncmpZero (s lit : List Char) : Bool := lit.isPrefixOf s

/-- `strstrList hay pat` models `strstr`: the suffix of `hay` starting at
the first occurrence of `pat`, or `none` when `pat` does not occur. -/
def strstrList : List Char → List Char → Option (List Char)
  | [], pat => if pat = [] then some [] else none
  | c :: rest, pat =>
      if pat.isPrefixOf (c :: rest) then some (c :: rest)
      else strstrList rest pat

/-- The `getauxval (AT_HWCAP)` block of `mono_hwcap_arch_init`: when the
bitmask is nonzero, test the THUMB, VFP, VFPv3 and VFPv3D16 bits. -/
def hwcapStep (hwcap : Nat) (s : CapabilitySet) : CapabilitySet :=
  if hwcap ≠ 0 then
    let s := if hwcap.land 0x00000004 ≠ 0 then { s with has_thumb := true } else s
    let s := if hwcap.land 0x00000040 ≠ 0 then { s with has_vfp := true } else s
    let s := if hwcap.land 0x00002000 ≠ 0 then { s with has_vfp3 := true } else s
    let s := if hwcap.land 0x00004000 ≠ 0 then { s with has_vfp3_d16 := true } else s
    s
  else s

/-- The `getauxval (AT_PLATFORM)` block of `mono_hwcap_arch_init`:
`none` models `getauxval` returning 0; otherwise `str [1]` is compared
against the digits 5, 6 and 7 by three independent tests. -/
def platformStep (platform : Option (List Char)) (s : CapabilitySet) : CapabilitySet :=
  match platform with
  | none => s
  | some str =>
    let s := if cAt str 1 ≥ '5' then { s with is_v5 := true } else s
    let s := if cAt str 1 ≥ '6' then { s with is_v6 := true } else s
    let s := if cAt str 1 ≥ '7' then { s with is_v7 := true } else s
    s

/-- `mono_hwcap_arch_init` on the auxiliary-vector build path
(`HAVE_SYS_AUXV_H` and not Android): HWCAP block, then PLATFORM block. -/
def mono_hwcap_arch_init_auxv (hwcap : Nat) (platform : Option (List Char))
    (s : CapabilitySet) : CapabilitySet :=
  platformStep platform (hwcapStep hwcap s)

/-- The `uname` block of the fallback path: when `name.machine` starts
with "aarch64" or "armv8", all eight flags are set to `TRUE`. -/
def unameStep (machine : List Char) (s : CapabilitySet) : CapabilitySet :=
  if strncmpZero machine "aarch64".toList || strncmpZero machine "armv8".toList then
    { s with is_v5 := true, is_v6 := true, is_v7 := true,
             has_vfp := true, has_vfp3 := true, has_vfp3_d16 := true,
             has_thumb := true, has_thumb2 := true }
  else s

/-- One iteration of the `fgets` loop over `/proc/cpuinfo`: a
"Processor"/"model name" line is searched for "(v" and the character two
places later is compared against the digits 5, 6 and 7; a "Features"
line is substring-searched for "thumb", "vfp", "vfpv3" and "vfpv3-d16". -/
def processLine (s : CapabilitySet) (line : List Char) : CapabilitySet :=
  if strncmpZero line "Processor".toList || strncmpZero line "model name".toList then
    match strstrList line "(v".toList with
    | some ver =>
      let s := if cAt ver 2 ≥ '5' then { s with is_v5 := true } else s
      let s := if cAt ver 2 ≥ '6' then { s with is_v6 := true } else s
      let s := if cAt ver 2 ≥ '7' then { s with is_v7 := true } else s
      s
    | none => s
  else if strncmpZero line "Features".toList then
    let s := if (strstrList line "thumb".toList).isSome then { s with has_thumb := true } else s
    let s := if (strstrList line "vfp".toList).isSome then { s with has_vfp := true } else s
    let s := if (strstrList line "vfpv3".toList).isSome then { s with has_vfp3 := true } else s
    let s := if (strstrList line "vfpv3-d16".toList).isSome then { s with has_vfp3_d16 := true } else s
    s
  else s

/-- The whole `fgets` loop over the lines of `/proc/cpuinfo`. -/
def scanCpuinfo (lines : List (List Char)) (s : CapabilitySet) : CapabilitySet :=
  lines.foldl processLine s

/-- `CPU_SUBTYPE_ARM_V5TEJ` from `mach/machine.h`. -/
def CPU_SUBTYPE_ARM_V5TEJ : Nat := 7

/-- `CPU_SUBTYPE_ARM_XSCALE` from `mach/machine.h`. -/
def CPU_SUBTYPE_ARM_XSCALE : Nat := 8

/-- `CPU_SUBTYPE_ARM_V6` from `mach/machine.h`. -/
def CPU_SUBTYPE_ARM_V6 : Nat := 6

/-- `CPU_SUBTYPE_ARM_V7` from `mach/machine.h`. -/
def CPU_SUBTYPE_ARM_V7 : Nat := 9

/-- `CPU_SUBTYPE_ARM_V7F` from `mach/machine.h`. -/
def CPU_SUBTYPE_ARM_V7F : Nat := 10

/-- `CPU_SUBTYPE_ARM_V7K` from `mach/machine.h`. -/
def CPU_SUBTYPE_ARM_V7K : Nat := 12

/-- `mono_hwcap_arch_init` on the `__APPLE__` build path: the
`hw.cpusubtype` sysctl value is matched against a fixed enumeration of
subtype constants by an if/else-if chain setting the version flags. -/
def mono_hwcap_arch_init_apple (sub_type : Nat) (s : CapabilitySet) : CapabilitySet :=
  if sub_type = CPU_SUBTYPE_ARM_V5TEJ ∨ sub_type = CPU_SUBTYPE_ARM_XSCALE then
    { s with is_v5 := true }
  else if sub_type = CPU_SUBTYPE_ARM_V6 then
    { s with is_v5 := true, is_v6 := true }
  else if sub_type = CPU_SUBTYPE_ARM_V7 ∨ sub_type = CPU_SUBTYPE_ARM_V7F ∨
      sub_type = CPU_SUBTYPE_ARM_V7K then
    { s with is_v5 := true, is_v6 := true, is_v7 := true }
  else s

/-- `mono_hwcap_arch_init` on the text-based fallback build path:
the `uname` check runs first, then — when `fopen ("/proc/cpuinfo", "r")`
succeeds (`some lines`) — the line scan runs on the resulting state;
`none` models a failed `fopen`, which skips the loop entirely. -/
def mono_hwcap_arch_init_fallback (machine : List Char)
    (cpuinfo : Option (List (List Char))) (s : CapabilitySet) : CapabilitySet :=
  let s := unameStep machine s
  match cpuinfo with
  | some lines => scanCpuinfo lines s
  | none => s

/-- A `gboolean` as printed by `%i`: `TRUE` is 1, `FALSE` is 0. -/
def gboolToInt (b : Bool) : Nat := if b then 1 else 0

/-- Render a `printf` format string with one `%i` argument. -/
def renderFormat : List Char → Nat → List Char
  | [], _ => []
  | '%' :: 'i' :: rest, n => Nat.toDigits 10 n ++ renderFormat rest n
  | c :: rest, n => c :: renderFormat rest n

/-- `g_fprintf (f, fmt, v)` modelled on a sink accumulating the chunks
written, in order. -/
def g_fprintf (sink : List (List Char)) (fmt : String) (v : Nat) :
    List (List Char) :=
  sink ++ [renderFormat fmt.toList v]

/-- `mono_hwcap_print`: eight `g_fprintf` calls in the fixed field
order, each printing one flag as `%i`. -/
def mono_hwcap_print (s : CapabilitySet) (sink : List (List Char)) :
    List (List Char) :=
  let f := sink
  let f := g_fprintf f "mono_hwcap_arm_is_v5 = %i\n" (gboolToInt s.is_v5)
  let f := g_fprintf f "mono_hwcap_arm_is_v6 = %i\n" (gboolToInt s.is_v6)
  let f := g_fprintf f "mono_hwcap_arm_is_v7 = %i\n" (gboolToInt s.is_v7)
  let f := g_fprintf f "mono_hwcap_arm_has_vfp = %i\n" (gboolToInt s.has_vfp)
  let f := g_fprintf f "mono_hwcap_arm_has_vfp3 = %i\n" (gboolToInt s.has_vfp3)
  let f := g_fprintf f "mono_hwcap_arm_has_vfp3_d16 = %i\n" (gboolToInt s.has_vfp3_d16)
  let f := g_fprintf f "mono_hwcap_arm_has_thumb = %i\n" (gboolToInt s.has_thumb)
  let f := g_fprintf f "mono_hwcap_arm_has_thumb2 = %i\n" (gboolToInt s.has_thumb2)
  f

/-- Every flag set, as the `uname` ARMv8 branch produces. -/
def allTrueCaps : CapabilitySet :=
  ⟨true, true, true, true, true, true, true, true⟩

/-- Pointwise disjunction of two capability sets. -/
def joinCaps (a b : CapabilitySet) : CapabilitySet :=
  ⟨a.is_v5 || b.is_v5, a.is_v6 || b.is_v6, a.is_v7 || b.is_v7,
   a.has_vfp || b.has_vfp, a.has_vfp3 || b.has_vfp3,
   a.has_vfp3_d16 || b.has_vfp3_d16,
   a.has_thumb || b.has_thumb, a.has_thumb2 || b.has_thumb2⟩

/-- Pointwise implication: every flag set in `a` is set in `b`. -/
def capLe (a b : CapabilitySet) : Prop :=
  (a.is_v5 = true → b.is_v5 = true) ∧
  (a.is_v6 = true → b.is_v6 = true) ∧
  (a.is_v7 = true → b.is_v7 = true) ∧
  (a.has_vfp = true → b.has_vfp = true) ∧
  (a.has_vfp3 = true → b.has_vfp3 = true) ∧
  (a.has_vfp3_d16 = true → b.has_vfp3_d16 = true) ∧
  (a.has_thumb = true → b.has_thumb = true) ∧
  (a.has_thumb2 = true → b.has_thumb2 = true)

/-- The architecture-version monotonicity invariant:
`is_v7 ⇒ is_v6 ⇒ is_v5`. -/
def versionMonotone (s : CapabilitySet) : Prop :=
  (s.is_v7 = true → s.is_v6 = true) ∧ (s.is_v6 = true → s.is_v5 = true)

/-- The digit a flag prints as under `%i`. -/
def hwBit (b : Bool) : Char := if b then '1' else '0'

lemma joinCaps_initState_left (s : CapabilitySet) : joinCaps initState s = s := by
  cases s; simp [joinCaps, initState]

lemma joinCaps_self (a : CapabilitySet) : joinCaps a a = a := by
  cases a; simp [joinCaps]

lemma joinCaps_assoc (a b c : CapabilitySet) :
    joinCaps a (joinCaps b c) = joinCaps (joinCaps a b) c := by
  cases a; cases b; cases c; simp [joinCaps, Bool.or_assoc]

lemma joinCaps_allTrue_left (s : CapabilitySet) :
    joinCaps allTrueCaps s = allTrueCaps := by
  cases s; simp [joinCaps, allTrueCaps]

lemma capLe_joinCaps_right (a b : CapabilitySet) : capLe b (joinCaps a b) := by
  cases a; cases b
  refine ⟨?_, ?_, ?_, ?_, ?_, ?_, ?_, ?_⟩ <;> simp [joinCaps] <;> intro h <;> simp [h]

lemma hwcapStep_join (hwcap : Nat) (s : CapabilitySet) :
    hwcapStep hwcap s = joinCaps (hwcapStep hwcap initState) s := by
  cases s
  simp only [hwcapStep, initState]
  repeat' split
  all_goals simp [joinCaps]

lemma platformStep_join (p : Option (List Char)) (s : CapabilitySet) :
    platformStep p s = joinCaps (platformStep p initState) s := by
  cases s
  cases p with
  | none => simp [platformStep, joinCaps, initState]
  | some str =>
      simp only [platformStep, initState]
      repeat' split
      all_goals simp [joinCaps]

lemma unameStep_join (machine : List Char) (s : CapabilitySet) :
    unameStep machine s = joinCaps (unameStep machine initState) s := by
  cases s
  simp only [unameStep, initState]
  repeat' split
  all_goals simp [joinCaps]

lemma processLine_join (line : List Char) (s : CapabilitySet) :
    processLine s line = joinCaps (processLine initState line) s := by
  cases s
  simp only [processLine, initState]
  repeat' split
  all_goals simp [joinCaps]

lemma scanCpuinfo_join (lines : List (List Char)) (s : CapabilitySet) :
    scanCpuinfo lines s = joinCaps (scanCpuinfo lines initState) s := by
  induction lines generalizing s with
  | nil => simp [scanCpuinfo, joinCaps_initState_left]
  | cons l ls ih =>
      show scanCpuinfo ls (processLine s l) = _
      rw [ih (processLine s l), processLine_join l s,
        show scanCpuinfo (l :: ls) initState
            = scanCpuinfo ls (processLine initState l) from rfl,
        ih (processLine initState l), joinCaps_assoc]

lemma auxv_join (hwcap : Nat) (p : Option (List Char)) (s : CapabilitySet) :
    mono_hwcap_arch_init_auxv hwcap p s
      = joinCaps (mono_hwcap_arch_init_auxv hwcap p initState) s := by
  unfold mono_hwcap_arch_init_auxv
  rw [hwcapStep_join hwcap s, platformStep_join p,
    platformStep_join p (hwcapStep hwcap initState), joinCaps_assoc]

lemma fallback_join (machine : List Char) (cpuinfo : Option (List (List Char)))
    (s : CapabilitySet) :
    mono_hwcap_arch_init_fallback machine cpuinfo s
      = joinCaps (mono_hwcap_arch_init_fallback machine cpuinfo initState) s := by
  cases cpuinfo with
  | none =>
      show unameStep machine s = joinCaps (unameStep machine initState) s
      exact unameStep_join machine s
  | some lines =>
      show scanCpuinfo lines (unameStep machine s)
        = joinCaps (scanCpuinfo lines (unameStep machine initState)) s
      rw [unameStep_join machine s, scanCpuinfo_join lines,
        scanCpuinfo_join lines (unameStep machine initState), joinCaps_assoc]

/-- Claim C3: starting from all flags false, scanning a cpuinfo file
containing `model name : ARMv7 Processor rev 2 (v7l)` sets `is_v5`,
`is_v6` and `is_v7` and nothing else; scanning one containing
`Features : thumb vfp vfpv3` sets `has_thumb`, `has_vfp` and `has_vfp3`
while `has_vfp3_d16` remains false. -/
theorem spec_c3 :
    scanCpuinfo ["model name : ARMv7 Processor rev 2 (v7l)".toList] initState
      = { initState with is_v5 := true, is_v6 := true, is_v7 := true } ∧
    scanCpuinfo ["Features : thumb vfp vfpv3".toList] initState
      = { initState with has_thumb := true, has_vfp := true, has_vfp3 := true } ∧
    (scanCpuinfo ["Features : thumb vfp vfpv3".toList] initState).has_vfp3_d16
      = false := by
  refine ⟨by decide, by decide, by decide⟩

/-- Claim C5: on the auxiliary-vector path from all flags false, a
hardware-capability bitmask with only the VFP bit (0x40) set and no
platform entry yields `has_vfp` true and every other flag false. -/
theorem spec_c5 :
    mono_hwcap_arch_init_auxv 0x00000040 none initState
      = { initState with has_vfp := true } := by decide

/-- Claim C7: when opening the cpuinfo file fails, the fallback path
returns normally with every flag exactly as the preceding `uname` step
left it; no error is propagated. -/
theorem spec_c7 (machine : List Char) (s : CapabilitySet) :
    mono_hwcap_arch_init_fallback machine none s = unameStep machine s := rfl

lemma joinCaps_allTrue_right (s : CapabilitySet) :
    joinCaps s allTrueCaps = allTrueCaps := by
  cases s; simp [joinCaps, allTrueCaps]

lemma unameStep_armv8 (machine : List Char) (s : CapabilitySet)
    (h : strncmpZero machine "aarch64".toList = true ∨
         strncmpZero machine "armv8".toList = true) :
    unameStep machine s = allTrueCaps := by
  unfold unameStep
  rw [if_pos ((Bool.or_eq_true _ _).mpr h)]
  rfl

lemma versionMonotone_hwcapStep (hwcap : Nat) {s : CapabilitySet}
    (hs : versionMonotone s) : versionMonotone (hwcapStep hwcap s) := by
  obtain ⟨h76, h65⟩ := hs
  simp only [hwcapStep]
  repeat' split
  all_goals exact ⟨h76, h65⟩

lemma versionMonotone_platformStep (p : Option (List Char)) {s : CapabilitySet}
    (hs : versionMonotone s) : versionMonotone (platformStep p s) := by
  obtain ⟨h76, h65⟩ := hs
  cases p with
  | none => exact ⟨h76, h65⟩
  | some str =>
      by_cases h7 : '7' ≤ cAt str 1
      · have h6 : '6' ≤ cAt str 1 := le_trans (by decide) h7
        have h5 : '5' ≤ cAt str 1 := le_trans (by decide) h6
        simp [platformStep, h5, h6, h7, versionMonotone]
      · by_cases h6 : '6' ≤ cAt str 1
        · have h5 : '5' ≤ cAt str 1 := le_trans (by decide) h6
          simp [platformStep, h5, h6, h7, versionMonotone]
        · by_cases h5 : '5' ≤ cAt str 1
          · simp only [platformStep, versionMonotone]
            simp [h5, h6, h7]
            exact h76
          · simp only [platformStep, versionMonotone]
            simp [h5, h6, h7]
            exact ⟨h76, h65⟩

lemma versionMonotone_unameStep (machine : List Char) {s : CapabilitySet}
    (hs : versionMonotone s) : versionMonotone (unameStep machine s) := by
  simp only [unameStep]
  split
  · exact ⟨fun _ => rfl, fun _ => rfl⟩
  · exact hs

lemma versionMonotone_processLine (line : List Char) {s : CapabilitySet}
    (hs : versionMonotone s) : versionMonotone (processLine s line) := by
  obtain ⟨h76, h65⟩ := hs
  simp only [processLine]
  split
  · split
    · rename_i ver hver
      by_cases h7 : '7' ≤ cAt ver 2
      · have h6 : '6' ≤ cAt ver 2 := le_trans (by decide) h7
        have h5 : '5' ≤ cAt ver 2 := le_trans (by decide) h6
        simp [h5, h6, h7, versionMonotone]
      · by_cases h6 : '6' ≤ cAt ver 2
        · have h5 : '5' ≤ cAt ver 2 := le_trans (by decide) h6
          simp [h5, h6, h7, versionMonotone]
        · by_cases h5 : '5' ≤ cAt ver 2
          · simp only [versionMonotone]
            simp [h5, h6, h7]
            exact h76
          · simp only [versionMonotone]
            simp [h5, h6, h7]
            exact ⟨h76, h65⟩
    · exact ⟨h76, h65⟩
  · split
    · repeat' split
      all_goals exact ⟨h76, h65⟩
    · exact ⟨h76, h65⟩

lemma versionMonotone_scanCpuinfo (lines : List (List Char)) {s : CapabilitySet}
    (hs : versionMonotone s) : versionMonotone (scanCpuinfo lines s) := by
  induction lines generalizing s with
  | nil => exact hs
  | cons l ls ih => exact ih (versionMonotone_processLine l hs)

/-- Claim C1: on both concrete detection paths, whenever the version
flags are derived from comparisons against the same version byte,
initialization started in a state satisfying the monotonicity invariant
ends in one: `is_v7 ⇒ is_v6` and `is_v6 ⇒ is_v5` hold afterwards. -/
theorem spec_c1 (hwcap : Nat) (platform : Option (List Char)) (machine : List Char)
    (cpuinfo : Option (List (List Char))) (s : CapabilitySet)
    (hs : versionMonotone s) :
    versionMonotone (mono_hwcap_arch_init_auxv hwcap platform s) ∧
    versionMonotone (mono_hwcap_arch_init_fallback machine cpuinfo s) := by
  constructor
  · exact versionMonotone_platformStep platform (versionMonotone_hwcapStep hwcap hs)
  · cases cpuinfo with
    | none => exact versionMonotone_unameStep machine hs
    | some lines =>
        exact versionMonotone_scanCpuinfo lines (versionMonotone_unameStep machine hs)

/-- Witness for C1 at a concrete auxiliary vector, machine string and
starting state. -/
theorem spec_c1_witness :
    versionMonotone initState ∧
    (versionMonotone (mono_hwcap_arch_init_auxv 64 (some "v7l".toList) initState) ∧
     versionMonotone (mono_hwcap_arch_init_fallback "armv7l".toList none initState)) :=
  ⟨⟨fun h => h, fun h => h⟩,
   spec_c1 64 (some "v7l".toList) "armv7l".toList none initState
     ⟨fun h => h, fun h => h⟩⟩

/-- Claim C2: on the fallback path, a machine string matching ARMv8
makes the `uname` step set every flag, and the cpuinfo scan is not
skipped: the result is exactly the scan run on the all-true state, so
both detection steps run in order. -/
theorem spec_c2 (machine : List Char) (lines : List (List Char)) (s : CapabilitySet)
    (h : strncmpZero machine "aarch64".toList = true ∨
         strncmpZero machine "armv8".toList = true) :
    unameStep machine s = allTrueCaps ∧
    mono_hwcap_arch_init_fallback machine (some lines) s
      = scanCpuinfo lines allTrueCaps := by
  have h1 : unameStep machine s = allTrueCaps := unameStep_armv8 machine s h
  refine ⟨h1, ?_⟩
  show scanCpuinfo lines (unameStep machine s) = scanCpuinfo lines allTrueCaps
  rw [h1]

/-- Witness for C2 at machine string "aarch64". -/
theorem spec_c2_witness :
    (strncmpZero "aarch64".toList "aarch64".toList = true ∨
     strncmpZero "aarch64".toList "armv8".toList = true) ∧
    (unameStep "aarch64".toList initState = allTrueCaps ∧
     mono_hwcap_arch_init_fallback "aarch64".toList
         (some ["Features : vfp".toList]) initState
       = scanCpuinfo ["Features : vfp".toList] allTrueCaps) :=
  ⟨Or.inl (by decide),
   spec_c2 "aarch64".toList ["Features : vfp".toList] initState (Or.inl (by decide))⟩

/-- Claim C4: on the fallback path, a machine string starting with
"aarch64" or "armv8" leaves all 8 flags true after initialization,
whatever the cpuinfo file holds (including a failed open). -/
theorem spec_c4 (machine : List Char) (cpuinfo : Option (List (List Char)))
    (s : CapabilitySet)
    (h : strncmpZero machine "aarch64".toList = true ∨
         strncmpZero machine "armv8".toList = true) :
    mono_hwcap_arch_init_fallback machine cpuinfo s = allTrueCaps := by
  have h1 : unameStep machine s = allTrueCaps := unameStep_armv8 machine s h
  cases cpuinfo with
  | none => exact h1
  | some lines =>
      show scanCpuinfo lines (unameStep machine s) = allTrueCaps
      rw [h1, scanCpuinfo_join, joinCaps_allTrue_right]

/-- Witness for C4 at machine strings "aarch64" and a one-line cpuinfo. -/
theorem spec_c4_witness :
    (strncmpZero "aarch64".toList "aarch64".toList = true ∨
     strncmpZero "aarch64".toList "armv8".toList = true) ∧
    mono_hwcap_arch_init_fallback "aarch64".toList
        (some ["model name : ARMv5 (v5l)".toList]) initState = allTrueCaps :=
  ⟨Or.inl (by decide),
   spec_c4 "aarch64".toList (some ["model name : ARMv5 (v5l)".toList]) initState
     (Or.inl (by decide))⟩

/-- Claim C6: on the auxiliary-vector path, a platform string whose
second character is the digit 7 makes all three independent `>=`
comparisons succeed, so `is_v5`, `is_v6` and `is_v7` become true. -/
theorem spec_c6 (hwcap : Nat) (str : List Char) (s : CapabilitySet)
    (h : cAt str 1 = '7') :
    (mono_hwcap_arch_init_auxv hwcap (some str) s).is_v5 = true ∧
    (mono_hwcap_arch_init_auxv hwcap (some str) s).is_v6 = true ∧
    (mono_hwcap_arch_init_auxv hwcap (some str) s).is_v7 = true := by
  have c5 : ('5' : Char) ≤ '7' := by decide
  have c6 : ('6' : Char) ≤ '7' := by decide
  have c7 : ('7' : Char) ≤ '7' := by decide
  show (platformStep (some str) (hwcapStep hwcap s)).is_v5 = true ∧
    (platformStep (some str) (hwcapStep hwcap s)).is_v6 = true ∧
    (platformStep (some str) (hwcapStep hwcap s)).is_v7 = true
  simp [platformStep, h, c5, c6, c7]

/-- Witness for C6 at platform string "v7l". -/
theorem spec_c6_witness :
    cAt "v7l".toList 1 = '7' ∧
    ((mono_hwcap_arch_init_auxv 0 (some "v7l".toList) initState).is_v5 = true ∧
     (mono_hwcap_arch_init_auxv 0 (some "v7l".toList) initState).is_v6 = true ∧
     (mono_hwcap_arch_init_auxv 0 (some "v7l".toList) initState).is_v7 = true) :=
  ⟨by decide, spec_c6 0 "v7l".toList initState (by decide)⟩

lemma render_is_v5 (b : Bool) :
    renderFormat "mono_hwcap_arm_is_v5 = %i\n".toList (gboolToInt b)
      = "mono_hwcap_arm_is_v5 = ".toList ++ [hwBit b, '\n'] := by
  cases b <;> rfl

lemma render_is_v6 (b : Bool) :
    renderFormat "mono_hwcap_arm_is_v6 = %i\n".toList (gboolToInt b)
      = "mono_hwcap_arm_is_v6 = ".toList ++ [hwBit b, '\n'] := by
  cases b <;> rfl

lemma render_is_v7 (b : Bool) :
    renderFormat "mono_hwcap_arm_is_v7 = %i\n".toList (gboolToInt b)
      = "mono_hwcap_arm_is_v7 = ".toList ++ [hwBit b, '\n'] := by
  cases b <;> rfl

lemma render_has_vfp (b : Bool) :
    renderFormat "mono_hwcap_arm_has_vfp = %i\n".toList (gboolToInt b)
      = "mono_hwcap_arm_has_vfp = ".toList ++ [hwBit b, '\n'] := by
  cases b <;> rfl

lemma render_has_vfp3 (b : Bool) :
    renderFormat "mono_hwcap_arm_has_vfp3 = %i\n".toList (gboolToInt b)
      = "mono_hwcap_arm_has_vfp3 = ".toList ++ [hwBit b, '\n'] := by
  cases b <;> rfl

lemma render_has_vfp3_d16 (b : Bool) :
    renderFormat "mono_hwcap_arm_has_vfp3_d16 = %i\n".toList (gboolToInt b)
      = "mono_hwcap_arm_has_vfp3_d16 = ".toList ++ [hwBit b, '\n'] := by
  cases b <;> rfl

lemma render_has_thumb (b : Bool) :
    renderFormat "mono_hwcap_arm_has_thumb = %i\n".toList (gboolToInt b)
      = "mono_hwcap_arm_has_thumb = ".toList ++ [hwBit b, '\n'] := by
  cases b <;> rfl

lemma render_has_thumb2 (b : Bool) :
    renderFormat "mono_hwcap_arm_has_thumb2 = %i\n".toList (gboolToInt b)
      = "mono_hwcap_arm_has_thumb2 = ".toList ++ [hwBit b, '\n'] := by
  cases b <;> rfl

/-- Claim C8: for every flag state and sink, `mono_hwcap_print` writes
exactly 8 lines, one per flag in the fixed field order, each of the form
"name = 0" or "name = 1". -/
theorem spec_c8 (s : CapabilitySet) (sink : List (List Char)) :
    mono_hwcap_print s sink
      = sink ++
        ["mono_hwcap_arm_is_v5 = ".toList ++ [hwBit s.is_v5, '\n'],
         "mono_hwcap_arm_is_v6 = ".toList ++ [hwBit s.is_v6, '\n'],
         "mono_hwcap_arm_is_v7 = ".toList ++ [hwBit s.is_v7, '\n'],
         "mono_hwcap_arm_has_vfp = ".toList ++ [hwBit s.has_vfp, '\n'],
         "mono_hwcap_arm_has_vfp3 = ".toList ++ [hwBit s.has_vfp3, '\n'],
         "mono_hwcap_arm_has_vfp3_d16 = ".toList ++ [hwBit s.has_vfp3_d16, '\n'],
         "mono_hwcap_arm_has_thumb = ".toList ++ [hwBit s.has_thumb, '\n'],
         "mono_hwcap_arm_has_thumb2 = ".toList ++ [hwBit s.has_thumb2, '\n']] ∧
    (mono_hwcap_print s sink).length = sink.length + 8 := by
  have h1 : mono_hwcap_print s sink
      = sink ++
        ["mono_hwcap_arm_is_v5 = ".toList ++ [hwBit s.is_v5, '\n'],
         "mono_hwcap_arm_is_v6 = ".toList ++ [hwBit s.is_v6, '\n'],
         "mono_hwcap_arm_is_v7 = ".toList ++ [hwBit s.is_v7, '\n'],
         "mono_hwcap_arm_has_vfp = ".toList ++ [hwBit s.has_vfp, '\n'],
         "mono_hwcap_arm_has_vfp3 = ".toList ++ [hwBit s.has_vfp3, '\n'],
         "mono_hwcap_arm_has_vfp3_d16 = ".toList ++ [hwBit s.has_vfp3_d16, '\n'],
         "mono_hwcap_arm_has_thumb = ".toList ++ [hwBit s.has_thumb, '\n'],
         "mono_hwcap_arm_has_thumb2 = ".toList ++ [hwBit s.has_thumb2, '\n']] := by
    simp only [mono_hwcap_print, g_fprintf]
    rw [render_is_v5, render_is_v6, render_is_v7, render_has_vfp, render_has_vfp3,
      render_has_vfp3_d16, render_has_thumb, render_has_thumb2]
    simp [List.append_assoc]
  refine ⟨h1, ?_⟩
  rw [h1]
  simp

/-- Claim C9: initialization is idempotent for a fixed detection
environment — running it a second time on the state the first run
produced changes nothing, on both concrete paths. -/
theorem spec_c9 (hwcap : Nat) (platform : Option (List Char)) (machine : List Char)
    (cpuinfo : Option (List (List Char))) :
    mono_hwcap_arch_init_auxv hwcap platform
        (mono_hwcap_arch_init_auxv hwcap platform initState)
      = mono_hwcap_arch_init_auxv hwcap platform initState ∧
    mono_hwcap_arch_init_fallback machine cpuinfo
        (mono_hwcap_arch_init_fallback machine cpuinfo initState)
      = mono_hwcap_arch_init_fallback machine cpuinfo initState := by
  constructor
  · rw [auxv_join hwcap platform (mono_hwcap_arch_init_auxv hwcap platform initState)]
    exact joinCaps_self _
  · rw [fallback_join machine cpuinfo
      (mono_hwcap_arch_init_fallback machine cpuinfo initState)]
    exact joinCaps_self _

lemma apple_join (sub_type : Nat) (s : CapabilitySet) :
    mono_hwcap_arch_init_apple sub_type s
      = joinCaps (mono_hwcap_arch_init_apple sub_type initState) s := by
  cases s
  simp only [mono_hwcap_arch_init_apple, initState]
  repeat' split
  all_goals simp [joinCaps]

/-- Claim C10: initialization only ever sets flags to true — on every
compile-time path (auxiliary vector, Apple sysctl, text fallback) each
flag is monotone non-decreasing, and in particular the cpuinfo scan
never clears a flag the `uname` step set. -/
theorem spec_c10 (hwcap : Nat) (platform : Option (List Char)) (sub_type : Nat)
    (machine : List Char) (cpuinfo : Option (List (List Char)))
    (lines : List (List Char)) (s : CapabilitySet) :
    capLe s (mono_hwcap_arch_init_auxv hwcap platform s) ∧
    capLe s (mono_hwcap_arch_init_apple sub_type s) ∧
    capLe s (mono_hwcap_arch_init_fallback machine cpuinfo s) ∧
    capLe (unameStep machine s)
      (mono_hwcap_arch_init_fallback machine (some lines) s) := by
  refine ⟨?_, ?_, ?_, ?_⟩
  · rw [auxv_join]
    exact capLe_joinCaps_right _ _
  · rw [apple_join]
    exact capLe_joinCaps_right _ _
  · rw [fallback_join]
    exact capLe_joinCaps_right _ _
  · show capLe (unameStep machine s) (scanCpuinfo lines (unameStep machine s))
    rw [scanCpuinfo_join]
    exact capLe_joinCaps_right _ _
